import Mathlib

/-
Verification development for the store-path reporting command in
src/src/nix/path-info.cc (struct CmdPathInfo).

The C++ code is shallowly embedded as pure Lean functions:
  * `printSize` embeds CmdPathInfo::printSize (lines 73-90);
  * `runText` / `runJson` / `run` embed the two branches of
    CmdPathInfo::run (lines 92-157);
  * the store is a record of the collaborator functions the command
    calls (printStorePath, querySubstitutablePaths, queryPathInfo,
    getClosureSize, pathInfoToJSON's per-record payload).

Machine integers are modelled as Nat (the sizes are uint64_t; claims
that depend on the width carry an explicit `< 2 ^ 64` bound).  The
`double res` of printSize is modelled as a rational: every operation
the loop performs on it (division by 1024, comparison with 1024) is
exact in binary floating point for the magnitudes reachable from a
uint64_t, so the rational model agrees with the double one on the
properties stated here.  Fallible collaborator calls (queryPathInfo,
which throws on an unknown path) return Except.
-/

namespace PathInfoCmd

/-! ### Size formatting (CmdPathInfo::printSize, lines 73-90) -/

/-- The character for a single decimal digit (ASCII). -/
def digitChar (d : ℕ) : Char := Char.ofNat (48 + d)

/-- Decimal digit characters of `n`, most significant first; fuel-driven
so that it is structurally recursive (fuel `n` is always enough). -/
def toDecAux : ℕ → ℕ → List Char
  | 0, _ => []
  | fuel + 1, n => if n = 0 then [] else toDecAux fuel (n / 10) ++ [digitChar (n % 10)]

/-- Decimal rendering of a natural number, as printf `%d` does it
(`0` renders as `"0"`). -/
def natDecimalChars (n : ℕ) : List Char :=
  if n = 0 then ['0'] else toDecAux n n

/-- Reading a decimal digit string back into a number (the round-trip
direction of the fixed-width format). -/
def parseDecimal (cs : List Char) : ℕ :=
  cs.foldl (fun acc c => acc * 10 + (c.toNat - 48)) 0

/-- Left-pad a character list with spaces to a minimum field width,
as printf does for `%11d` and `%6.1f`. -/
def padLeftChars (w : ℕ) (cs : List Char) : List Char :=
  List.replicate (w - cs.length) ' ' ++ cs

/-- The unit ladder `idents` of printSize (line 80-82):
`{' ', 'K', 'M', 'G', 'T', 'P', 'E', 'Z', 'Y'}`, 9 entries. -/
def identsList : List Char := [' ', 'K', 'M', 'G', 'T', 'P', 'E', 'Z', 'Y']

/-- The scaling loop of printSize (lines 83-88):
`while (res > 1024 && power < idents.size()) { ++power; res /= 1024; }`.
Fuel-driven structural recursion; the guard `power < 9` bounds the loop
at 9 iterations from `power = 0`, so fuel 10 is never exhausted. -/
def humanScaleAux : ℕ → ℚ → ℕ → ℚ × ℕ
  | 0, res, power => (res, power)
  | fuel + 1, res, power =>
    if 1024 < res ∧ power < 9 then humanScaleAux fuel (res / 1024) (power + 1)
    else (res, power)

/-- Running the scaling loop from `res = value`, `power = 0`. -/
def humanScale (value : ℕ) : ℚ × ℕ := humanScaleAux 10 (value : ℚ) 0

/-- Rendering of a nonnegative rational with exactly one fractional
digit, modelling printf `%.1f` (round to nearest; the tie-breaking rule
of the binary double is immaterial to the claims proved here). -/
def ratFixed1Chars (q : ℚ) : List Char :=
  let n := (⌊q * 10 + 1 / 2⌋).toNat
  natDecimalChars (n / 10) ++ ['.'] ++ natDecimalChars (n % 10)

/-- CmdPathInfo::printSize (lines 73-90).  Fixed mode prints
`fmt("\t%11d", value)`; human mode runs the scaling loop and prints
`fmt("\t%6.1f%c", res, idents.at(power))`. -/
def printSize (humanReadable : Bool) (value : ℕ) : String :=
  if humanReadable = false then
    String.mk ('\t' :: padLeftChars 11 (natDecimalChars value))
  else
    let rp := humanScale value
    String.mk ('\t' :: (padLeftChars 6 (ratFixed1Chars rp.1) ++ [identsList.getD rp.2 ' ']))

/-! ### Data model -/

/-- The per-path metadata snapshot returned by `store->queryPathInfo`
(the fields of ValidPathInfo that CmdPathInfo::run reads: path, narSize,
ultimate, ca, sigs).  The content address is kept in its rendered form
(`renderContentAddress` is an external collaborator). -/
structure PathData (Path : Type) where
  path : Path
  narSize : ℕ
  ultimate : Bool
  ca : Option String
  sigs : List String

/-- The option flags of CmdPathInfo (lines 15-19) together with the
structured-output toggle `json` inherited from MixJSON. -/
structure Opts where
  showSize : Bool
  showClosureSize : Bool
  humanReadable : Bool
  showSigs : Bool
  showSubStatus : Bool
  json : Bool

/-- The collaborator interface of CmdPathInfo::run: the store operations
the command calls, as pure functions of the (fixed) store state.
`querySubstitutablePaths` receives the requested set and returns the
substitutable subset; `queryPathInfo` may fail (NotFoundError), carried
as `Except`; `getClosureSize` stands for the `.first` component of
`store->getClosureSize`; `jsonPayload` stands for the per-record fields
other than `path` that `store->pathInfoToJSON` serialises (it depends on
the showClosureSize argument passed at line 106). -/
structure Store (Path : Type) where
  printStorePath : Path → String
  querySubstitutablePaths : List Path → List Path
  queryPathInfo : Path → Except String (PathData Path)
  getClosureSize : Path → ℕ
  jsonPayload : Path → Bool → String

/-- One element of the JSON array built at lines 103-113: the `path`
field (kept as the path itself; `parseStorePath ∘ printStorePath = id`
per the store contract), the opaque collaborator-produced payload, and
the `substitutable` field added at line 111 when showSubStatus is set. -/
structure JRec (Path : Type) where
  path : Path
  payload : String
  substitutable : Option Bool

section Model

variable {Path : Type} [LinearOrder Path]

/-! ### StorePathSet: `std::set<StorePath>` is an ordered unique
container; `StorePathSet(v.begin(), v.end())` holds the distinct
elements in sorted order. -/

/-- Ordered-set insertion (the effect of one `std::set` insert on the
sorted distinct element list). -/
def setInsert (x : Path) : List Path → List Path
  | [] => [x]
  | y :: ys => if x < y then x :: y :: ys else if x = y then y :: ys else y :: setInsert x ys

/-- `StorePathSet(l.begin(), l.end())`: the sorted list of distinct
elements of `l`, built by successive insertion. -/
def setOfList (l : List Path) : List Path :=
  l.foldl (fun s p => setInsert p s) []

/-! ### CmdPathInfo::run (lines 92-157) -/

/-- Lines 94-96: `pathLen = max(pathLen, store->printStorePath(p).size())`
over the requested paths, starting from 0.  Note this runs over the
original request, before any substitutability filtering. -/
def pathLenOf (store : Store Path) (paths : List Path) : ℕ :=
  paths.foldl (fun acc p => max acc (store.printStorePath p).length) 0

/-- Line 100: the substitutable set, queried once with the full
requested set. -/
def subPaths (store : Store Path) (paths : List Path) : List Path :=
  store.querySubstitutablePaths (setOfList paths)

/-- Lines 118-126: `missingPaths`, the requested paths that are not in
the substitutable set, in request order. -/
def missingPaths (store : Store Path) (paths : List Path) : List Path :=
  paths.filter (fun p => !(decide (p ∈ subPaths store paths)))

/-- The path list the text-mode loop at line 129 runs over: the missing
paths when showSubStatus is set (line 126), the request otherwise. -/
def textPaths (store : Store Path) (opts : Opts) (paths : List Path) : List Path :=
  if opts.showSubStatus then missingPaths store paths else paths

/-- One iteration of the text-mode loop body (lines 129-153), given the
metadata `info` for the path: the printed store path; the space padding
to `pathLen` (line 136, only when a size/closure-size/signature column
is requested; `std::max(0, pathLen - len)` is truncated subtraction);
the size column; the closure-size column; the signature column
(`ultimate`, then `ca:<rendered>`, then the signatures, space-joined
after a tab); then the newline from `std::endl`. -/
def renderLine (store : Store Path) (opts : Opts) (pathLen : ℕ) (info : PathData Path) : String :=
  let s := store.printStorePath info.path
  s ++ (if opts.showSize || opts.showClosureSize || opts.showSigs then
          String.mk (List.replicate (pathLen - s.length) ' ') else "")
    ++ (if opts.showSize then printSize opts.humanReadable info.narSize else "")
    ++ (if opts.showClosureSize then printSize opts.humanReadable (store.getClosureSize info.path) else "")
    ++ (if opts.showSigs then
          "\t" ++ String.intercalate " "
            ((if info.ultimate then ["ultimate"] else []) ++
             (match info.ca with | some c => ["ca:" ++ c] | none => []) ++ info.sigs)
        else "")
    ++ "\n"

/-- The text-mode loop (lines 129-154).  Each produced line is written
to std::cout (and flushed by std::endl) as soon as its iteration ends,
so the loop's observable behaviour is the list of lines written before
the first `queryPathInfo` failure, together with that failure if any. -/
def runTextLines (store : Store Path) (opts : Opts) (pathLen : ℕ) :
    List Path → List String × Option String
  | [] => ([], none)
  | p :: ps =>
    match store.queryPathInfo p with
    | .error e => ([], some e)
    | .ok info =>
      let rest := runTextLines store opts pathLen ps
      (renderLine store opts pathLen info :: rest.1, rest.2)

/-- The text branch of CmdPathInfo::run (lines 117-156): the bytes
written to std::cout, and the error that aborted the loop, if any. -/
def runText (store : Store Path) (opts : Opts) (paths : List Path) :
    String × Option String :=
  let r := runTextLines store opts (pathLenOf store paths) (textPaths store opts paths)
  (String.join r.1, r.2)

/-- Line 103-106: `store->pathInfoToJSON(set, true, showClosureSize,
SRI, AllowInvalid)`, modelled as the collaborator producing one record
per element of the given set, in the set's (sorted) order. -/
def pathInfoToJSON (store : Store Path) (showClosureSize : Bool) (pathsSet : List Path) :
    List (JRec Path) :=
  pathsSet.map (fun p => ⟨p, store.jsonPayload p showClosureSize, none⟩)

/-- The JSON branch of CmdPathInfo::run (lines 102-115): build the
records over the deduplicated sorted request set, then, when
showSubStatus is set, add to every record the boolean `substitutable`
field (membership of the record's path in the substitutable set). -/
def runJson (store : Store Path) (opts : Opts) (paths : List Path) : List (JRec Path) :=
  let s := setOfList paths
  let doc := pathInfoToJSON store opts.showClosureSize s
  if opts.showSubStatus then
    doc.map (fun v => ⟨v.path, v.payload, some (decide (v.path ∈ subPaths store paths))⟩)
  else doc

/-- Serialisation of one JSON record (`json.dump()` at line 114):
an injective rendering with the record's path printed via the store.
(nlohmann's exact key ordering is an external-interface detail; any
injective record rendering represents the emitted bytes faithfully for
the claims below.) -/
def dumpJRec (store : Store Path) (v : JRec Path) : String :=
  "\x7b\"path\":\"" ++ store.printStorePath v.path ++ "\"" ++ v.payload ++
    (match v.substitutable with
     | some b => ",\"substitutable\":" ++ (if b then "true" else "false")
     | none => "") ++ "\x7d"

/-- `std::cout << json.dump()`: the serialised top-level array. -/
def dumpJson (store : Store Path) (doc : List (JRec Path)) : String :=
  "[" ++ String.intercalate "," (doc.map (dumpJRec store)) ++ "]"

/-- CmdPathInfo::run (lines 92-157): dispatch on the MixJSON flag
(line 102).  Result: the bytes written to std::cout and the error that
aborted the run, if any (the JSON branch's collaborator calls are
modelled total: pathInfoToJSON is called with AllowInvalid). -/
def run (store : Store Path) (opts : Opts) (paths : List Path) :
    String × Option String :=
  if opts.json then (dumpJson store (runJson store opts paths), none)
  else runText store opts paths

/-! ### Specification-side comparison definitions -/

/-- Modelled from the spec, for comparison only (spec §3 invariant:
"Column-alignment width in text mode is computed from the *post-filter*
path set, not the original request"): identical to `runText` except
that the alignment width is computed over the post-filter path list.
The source (lines 94-96) instead computes the width before filtering. -/
def runTextSpecWidth (store : Store Path) (opts : Opts) (paths : List Path) :
    String × Option String :=
  let ps := textPaths store opts paths
  let r := runTextLines store opts (pathLenOf store ps) ps
  (String.join r.1, r.2)

/-- The metadata of a path whose query succeeded (arbitrary placeholder
on the error branch; used only where the query is known to succeed or
under an `okList` guard). -/
def okInfo (store : Store Path) (p : Path) : PathData Path :=
  match store.queryPathInfo p with
  | .ok i => i
  | .error _ => ⟨p, 0, false, none, []⟩

/-- The longest prefix of a path list whose metadata queries all
succeed — exactly the paths the text loop reaches before aborting. -/
def okList (store : Store Path) : List Path → List Path
  | [] => []
  | p :: ps =>
    match store.queryPathInfo p with
    | .ok _ => p :: okList store ps
    | .error _ => []

/-- The error of the first path whose metadata query fails, if any. -/
def firstErr (store : Store Path) : List Path → Option String
  | [] => none
  | p :: ps =>
    match store.queryPathInfo p with
    | .ok _ => firstErr store ps
    | .error e => some e

end Model

/-! ### Concrete instances (over `Path := ℕ`) for counterexamples and
witnesses -/

/-- A store with one long path name (`0`, substitutable) and one short
one (`1`, not substitutable); every metadata query succeeds. -/
def storeA : Store ℕ :=
  ⟨fun p => if p = 0 then "aaaaaaaa" else "b",
   fun _ => [0],
   fun p => Except.ok ⟨p, 5, false, none, []⟩,
   fun _ => 7,
   fun _ _ => ""⟩

/-- Text mode with `--size` and `--filter-substitutable`. -/
def optsA : Opts := ⟨true, false, false, false, true, false⟩

/-- A store where path `0` resolves but the metadata query for path `1`
fails (NotFoundError). -/
def storeB : Store ℕ :=
  ⟨fun _ => "p",
   fun _ => [],
   fun p => if p = 0 then Except.ok ⟨p, 5, false, none, []⟩
            else Except.error "path 1 not found",
   fun _ => 5,
   fun _ _ => ""⟩

/-- Plain text mode, no extra columns. -/
def optsB : Opts := ⟨false, false, false, false, false, false⟩

/-- A store with two ordinary paths (`0` printing before `1`), nothing
substitutable, every query succeeding. -/
def storeC : Store ℕ :=
  ⟨fun p => if p = 0 then "a" else "b",
   fun _ => [],
   fun p => Except.ok ⟨p, 5, false, none, []⟩,
   fun _ => 5,
   fun _ _ => ""⟩

/-- Structured (JSON) mode. -/
def optsC : Opts := ⟨false, false, false, false, false, true⟩

/-- Structured mode with `--filter-substitutable`. -/
def optsD : Opts := ⟨false, false, false, false, true, true⟩

end PathInfoCmd

/-! ## Helper lemmas -/

namespace PathInfoCmd

theorem digitChar_toNat : ∀ d, d < 10 → (digitChar d).toNat = 48 + d := by decide

theorem digitChar_ne_space : ∀ d, d < 10 → ¬ digitChar d = ' ' := by decide

theorem toDecAux_digits :
    ∀ fuel n c, c ∈ toDecAux fuel n → ∃ d, d < 10 ∧ c = digitChar d := by
  intro fuel
  induction fuel with
  | zero => intro n c hc; simp [toDecAux] at hc
  | succ fuel ih =>
    intro n c hc
    rw [toDecAux] at hc
    by_cases hn : n = 0
    · simp [hn] at hc
    · rw [if_neg hn, List.mem_append] at hc
      rcases hc with hc | hc
      · exact ih _ _ hc
      · refine ⟨n % 10, Nat.mod_lt _ (by norm_num), ?_⟩
        simpa using hc

theorem parseDecimal_snoc (xs : List Char) (c : Char) :
    parseDecimal (xs ++ [c]) = parseDecimal xs * 10 + (c.toNat - 48) := by
  simp [parseDecimal, List.foldl_append]

theorem parseDecimal_toDecAux :
    ∀ fuel n, n ≤ fuel → parseDecimal (toDecAux fuel n) = n := by
  intro fuel
  induction fuel with
  | zero =>
    intro n hn
    interval_cases n
    simp [toDecAux, parseDecimal]
  | succ fuel ih =>
    intro n hn
    rw [toDecAux]
    by_cases hn0 : n = 0
    · simp [hn0, parseDecimal]
    · rw [if_neg hn0, parseDecimal_snoc, ih (n / 10) ?bound]
      · rw [digitChar_toNat (n % 10) (Nat.mod_lt _ (by norm_num))]
        have := Nat.div_add_mod n 10
        omega
      case bound =>
        have := Nat.div_lt_self (Nat.pos_of_ne_zero hn0) (by norm_num : 1 < 10)
        omega

theorem parseDecimal_natDecimalChars (n : ℕ) :
    parseDecimal (natDecimalChars n) = n := by
  rw [natDecimalChars]
  by_cases hn : n = 0
  · simp [hn, parseDecimal]
  · rw [if_neg hn]
    exact parseDecimal_toDecAux n n le_rfl

theorem natDecimalChars_ne_space (n : ℕ) :
    ∀ c ∈ natDecimalChars n, ¬ c = ' ' := by
  rw [natDecimalChars]
  by_cases hn : n = 0
  · simp [hn]
  · rw [if_neg hn]
    intro c hc
    obtain ⟨d, hd, rfl⟩ := toDecAux_digits n n c hc
    exact digitChar_ne_space d hd

theorem dropWhile_replicate_space (k : ℕ) (cs : List Char)
    (h : ∀ c ∈ cs, ¬ c = ' ') :
    (List.replicate k ' ' ++ cs).dropWhile (fun c => c == ' ') = cs := by
  induction k with
  | zero =>
    cases cs with
    | nil => simp
    | cons c cs' =>
      have : ¬ c = ' ' := h c (List.mem_cons_self _ _)
      simp [List.dropWhile_cons, this]
  | succ k ih =>
    rw [List.replicate_succ, List.cons_append, List.dropWhile_cons]
    simpa using ih

theorem humanScaleAux_power_le :
    ∀ (fuel k : ℕ) (res : ℚ) (power : ℕ),
      res ≤ 1024 ^ (k + 1) → (humanScaleAux fuel res power).2 ≤ power + k := by
  intro fuel
  induction fuel with
  | zero =>
    intro k res power _
    simp [humanScaleAux]
  | succ fuel ih =>
    intro k res power h
    rw [humanScaleAux]
    split_ifs with hc
    · obtain ⟨hres, _⟩ := hc
      cases k with
      | zero =>
        exfalso
        norm_num at h
        linarith
      | succ k' =>
        have h2 : res / 1024 ≤ 1024 ^ (k' + 1) := by
          rw [div_le_iff₀ (by norm_num : (0 : ℚ) < 1024)]
          calc res ≤ 1024 ^ (k' + 1 + 1) := h
            _ = 1024 ^ (k' + 1) * 1024 := by ring
        have := ih k' (res / 1024) (power + 1) h2
        omega
    · exact Nat.le_add_right power k

end PathInfoCmd

namespace PathInfoCmd

section ModelLemmas

variable {Path : Type} [LinearOrder Path]

set_option linter.unusedSectionVars false

theorem mem_setInsert {x a : Path} {s : List Path} :
    a ∈ setInsert x s ↔ a = x ∨ a ∈ s := by
  induction s with
  | nil => simp [setInsert]
  | cons y ys ih =>
    rw [setInsert]
    split_ifs with h1 h2
    · simp [List.mem_cons]
    · subst h2
      simp [List.mem_cons]
    · simp [List.mem_cons, ih]
      tauto

theorem sorted_setInsert {x : Path} {s : List Path}
    (hs : s.Sorted (· < ·)) : (setInsert x s).Sorted (· < ·) := by
  induction s with
  | nil => simp [setInsert]
  | cons y ys ih =>
    rw [List.sorted_cons] at hs
    obtain ⟨hy, hys⟩ := hs
    rw [setInsert]
    split_ifs with h1 h2
    · rw [List.sorted_cons]
      refine ⟨?_, ?_⟩
      · intro b hb
        rcases List.mem_cons.mp hb with rfl | hb
        · exact h1
        · exact h1.trans (hy b hb)
      · rw [List.sorted_cons]
        exact ⟨hy, hys⟩
    · subst h2
      rw [List.sorted_cons]
      exact ⟨hy, hys⟩
    · rw [List.sorted_cons]
      refine ⟨?_, ih hys⟩
      intro b hb
      rcases mem_setInsert.mp hb with rfl | hb
      · exact lt_of_le_of_ne (not_lt.mp h1) (Ne.symm h2)
      · exact hy b hb

theorem sorted_foldl_setInsert :
    ∀ (l s : List Path), s.Sorted (· < ·) →
      (l.foldl (fun s p => setInsert p s) s).Sorted (· < ·) := by
  intro l
  induction l with
  | nil => intro s hs; exact hs
  | cons p ps ih => intro s hs; exact ih _ (sorted_setInsert hs)

theorem mem_foldl_setInsert :
    ∀ (l s : List Path) (a : Path),
      a ∈ l.foldl (fun s p => setInsert p s) s ↔ a ∈ s ∨ a ∈ l := by
  intro l
  induction l with
  | nil => intro s a; simp
  | cons p ps ih =>
    intro s a
    rw [List.foldl_cons, ih, mem_setInsert]
    simp [List.mem_cons]
    tauto

theorem sorted_setOfList (l : List Path) : (setOfList l).Sorted (· < ·) :=
  sorted_foldl_setInsert l [] (by simp)

theorem mem_setOfList {l : List Path} {a : Path} :
    a ∈ setOfList l ↔ a ∈ l := by
  rw [setOfList, mem_foldl_setInsert]
  simp

theorem nodup_setOfList (l : List Path) : (setOfList l).Nodup :=
  (sorted_setOfList l).nodup

theorem length_setOfList (l : List Path) :
    (setOfList l).length = l.dedup.length := by
  refine (List.perm_of_nodup_nodup_toFinset_eq (nodup_setOfList l) l.nodup_dedup ?_).length_eq
  ext a
  simp [mem_setOfList, List.mem_dedup]

theorem runTextLines_eq (store : Store Path) (opts : Opts) (w : ℕ) :
    ∀ ps, runTextLines store opts w ps =
      ((okList store ps).map (fun p => renderLine store opts w (okInfo store p)),
       firstErr store ps) := by
  intro ps
  induction ps with
  | nil => simp [runTextLines, okList, firstErr]
  | cons p ps ih =>
    rw [runTextLines, okList, firstErr]
    cases hq : store.queryPathInfo p with
    | error e => simp
    | ok info => simp [ih, okInfo, hq]

theorem okList_of_ok (store : Store Path) :
    ∀ ps, (∀ p ∈ ps, (store.queryPathInfo p).isOk = true) →
      okList store ps = ps := by
  intro ps
  induction ps with
  | nil => intro _; rfl
  | cons p ps ih =>
    intro h
    rw [okList]
    cases hq : store.queryPathInfo p with
    | error e =>
      exfalso
      have := h p (List.mem_cons_self _ _)
      rw [hq] at this
      simp [Except.isOk, Except.toBool] at this
    | ok info =>
      simp [ih fun q hq' => h q (List.mem_cons_of_mem _ hq')]

theorem firstErr_of_ok (store : Store Path) :
    ∀ ps, (∀ p ∈ ps, (store.queryPathInfo p).isOk = true) →
      firstErr store ps = none := by
  intro ps
  induction ps with
  | nil => intro _; rfl
  | cons p ps ih =>
    intro h
    rw [firstErr]
    cases hq : store.queryPathInfo p with
    | error e =>
      exfalso
      have := h p (List.mem_cons_self _ _)
      rw [hq] at this
      simp [Except.isOk, Except.toBool] at this
    | ok info =>
      simp [ih fun q hq' => h q (List.mem_cons_of_mem _ hq')]

theorem runTextLines_congr (store : Store Path) (o₁ o₂ : Opts) (w : ℕ)
    (h : ∀ i, renderLine store o₁ w i = renderLine store o₂ w i) :
    ∀ ps, runTextLines store o₁ w ps = runTextLines store o₂ w ps := by
  intro ps
  induction ps with
  | nil => rfl
  | cons p ps ih =>
    rw [runTextLines, runTextLines]
    cases hq : store.queryPathInfo p with
    | error e => rfl
    | ok info => simp [ih, h]

end ModelLemmas

end PathInfoCmd

/-! ## Claims -/

namespace PathInfoCmd

/-- Claim C2 (counterexample): the claim asserts that `format(1024,
true)` applies exactly one scale step (final power 1, a `1.0K`-style
rendering).  In the code the loop guard is the strict `res > 1024`
(line 85), which 1024 does not satisfy, so zero steps run: the final
power is 0, not 1, and the rendering is `1024.0` with the blank unit. -/
theorem claim2_counterexample :
    ¬ ((humanScale 1024).2 = 1) ∧ (humanScale 1024).2 = 0 ∧
      printSize true 1024 = "\t1024.0 " := by
  have h : humanScale 1024 = (1024, 0) := by norm_num [humanScale, humanScaleAux]
  refine ⟨?_, ?_, ?_⟩
  · rw [h]
    simp
  · rw [h]
  · rw [printSize]
    norm_num [h, ratFixed1Chars]
    decide

/-- Claim C2 (amended): a scale step is applied only while the running
value strictly exceeds 1024, so `format(1024, true)` applies zero steps
and renders `1024.0` with the blank unit; the first input receiving one
scale step and the `K` unit is 1025, rendered `1.0K`. -/
theorem claim2_amended :
    humanScale 1024 = (1024, 0) ∧ printSize true 1024 = "\t1024.0 " ∧
      humanScale 1025 = (1025 / 1024, 1) ∧ printSize true 1025 = "\t   1.0K" := by
  have h0 : humanScale 1024 = (1024, 0) := by norm_num [humanScale, humanScaleAux]
  have h1 : humanScale 1025 = (1025 / 1024, 1) := by norm_num [humanScale, humanScaleAux]
  refine ⟨h0, ?_, h1, ?_⟩
  · rw [printSize]
    norm_num [h0, ratFixed1Chars]
    decide
  · rw [printSize]
    norm_num [h1, ratFixed1Chars]
    decide

/-- Claim C7 (confirmed): for every u64 value, fixed-mode formatting is
the tab, then the exact decimal numeral left-padded with spaces to a
field of at least width 11 and nothing else (no unit suffix); dropping
the padding and parsing the digits back as decimal yields the value
exactly. -/
theorem claim7_fixed_mode_exact_roundtrip (v : ℕ) (_hv : v < 2 ^ 64) :
    (printSize false v).data = '\t' :: padLeftChars 11 (natDecimalChars v) ∧
    11 ≤ ((printSize false v).data.tail).length ∧
    parseDecimal (((printSize false v).data.tail).dropWhile (fun c => c == ' ')) = v := by
  have hdata : (printSize false v).data = '\t' :: padLeftChars 11 (natDecimalChars v) := rfl
  refine ⟨hdata, ?_, ?_⟩
  · rw [hdata]
    simp only [List.tail_cons, padLeftChars, List.length_append, List.length_replicate]
    omega
  · rw [hdata]
    simp only [List.tail_cons]
    rw [padLeftChars, dropWhile_replicate_space _ _ (natDecimalChars_ne_space v)]
    exact parseDecimal_natDecimalChars v

/-- Witness for C7 at the concrete input 5. -/
theorem claim7_witness :
    (5 : ℕ) < 2 ^ 64 ∧
    ((printSize false 5).data = '\t' :: padLeftChars 11 (natDecimalChars 5) ∧
     11 ≤ ((printSize false 5).data.tail).length ∧
     parseDecimal (((printSize false 5).data.tail).dropWhile (fun c => c == ' ')) = 5) :=
  ⟨by norm_num, claim7_fixed_mode_exact_roundtrip 5 (by norm_num)⟩

/-- Claim C9 (confirmed): for every u64 byte count the scaling loop
finishes with power at most 6 (unit `E`), since a u64 divided by 1024
six times is at most 16; in particular the power is within the 9-entry
unit ladder, so the bounds-checked `idents.at(power)` cannot throw. -/
theorem claim9_human_power_in_bounds (v : ℕ) (hv : v < 2 ^ 64) :
    (humanScale v).2 ≤ 6 ∧ (humanScale v).2 < identsList.length := by
  have hb : (v : ℚ) ≤ 1024 ^ (6 + 1) := by
    have h1 : (v : ℚ) < 2 ^ 64 := by exact_mod_cast hv
    have h2 : (2 : ℚ) ^ 64 ≤ 1024 ^ (6 + 1) := by norm_num
    linarith
  have hle := humanScaleAux_power_le 10 6 (v : ℚ) 0 hb
  have h6 : (humanScale v).2 ≤ 6 := by simpa [humanScale] using hle
  refine ⟨h6, ?_⟩
  have : identsList.length = 9 := rfl
  omega

/-- Witness for C9 at the concrete input 999. -/
theorem claim9_witness :
    (999 : ℕ) < 2 ^ 64 ∧
    ((humanScale 999).2 ≤ 6 ∧ (humanScale 999).2 < identsList.length) :=
  ⟨by norm_num, claim9_human_power_in_bounds 999 (by norm_num)⟩

end PathInfoCmd

namespace PathInfoCmd

/-- Claim C1 (counterexample): the claim asserts the text-mode alignment
width is the maximum rendered-identifier length over the post-filter
path set, with filtered-out paths never influencing it.  In the code the
width is computed at lines 94-96, before the substitutability filter at
lines 118-127.  With a long substitutable path `0` (printed as 8 chars)
filtered out and a short missing path `1` (printed as 1 char) kept, the
code pads path 1's row to width 8 while the post-filter width would be
1, so the two renderings differ. -/
theorem claim1_counterexample :
    runText storeA optsA [0, 1] = ("b       \t          5\n", none) ∧
    runTextSpecWidth storeA optsA [0, 1] = ("b\t          5\n", none) ∧
    ¬ (runText storeA optsA [0, 1] = runTextSpecWidth storeA optsA [0, 1]) := by
  decide

/-- Claim C1 (amended): the text-mode alignment width is the maximum
rendered-identifier length over the ORIGINAL request set (computed
before substitutability filtering), so filtered-out paths do influence
the width: every emitted row is rendered with width `pathLenOf` of the
original request while the rows range over the missing paths only. -/
theorem claim1_amended_width_from_original {Path : Type} [LinearOrder Path]
    (store : Store Path) (opts : Opts) (paths : List Path)
    (h : opts.showSubStatus = true) :
    runText store opts paths =
      (String.join ((okList store (missingPaths store paths)).map
        (fun p => renderLine store opts (pathLenOf store paths) (okInfo store p))),
       firstErr store (missingPaths store paths)) := by
  simp only [runText, runTextLines_eq, textPaths, h, if_true]

/-- Witness for the amended C1 at a concrete store and request. -/
theorem claim1_amended_witness :
    optsA.showSubStatus = true ∧
    runText storeA optsA [0, 1] =
      (String.join ((okList storeA (missingPaths storeA [0, 1])).map
        (fun p => renderLine storeA optsA (pathLenOf storeA [0, 1]) (okInfo storeA p))),
       firstErr storeA (missingPaths storeA [0, 1])) :=
  ⟨rfl, claim1_amended_width_from_original storeA optsA [0, 1] rfl⟩

/-- Claim C3 (counterexample): the claim asserts structured (JSON) mode
presents records in the caller-supplied request order.  The code
converts the request to a `std::set` (line 105, with a FIXME about
order), so for the request `[1, 0]` the emitted records are in sorted
path order `[0, 1]`, not request order. -/
theorem claim3_counterexample :
    (runJson storeC optsC [1, 0]).map JRec.path = [0, 1] ∧
    ¬ ((runJson storeC optsC [1, 0]).map JRec.path = [1, 0]) := by
  decide

/-- Claim C3 (amended): text mode presents paths in the original (or,
with filtering enabled, the filtered) request order, but structured mode
presents one record per distinct requested path in sorted store-path
order (the `std::set` iteration order), not request order. -/
theorem claim3_amended_order {Path : Type} [LinearOrder Path]
    (store : Store Path) (opts : Opts) (paths : List Path)
    (hok : ∀ p ∈ textPaths store opts paths, (store.queryPathInfo p).isOk = true) :
    (runJson store opts paths).map JRec.path = setOfList paths ∧
    (setOfList paths).Sorted (· < ·) ∧
    (∀ x, x ∈ setOfList paths ↔ x ∈ paths) ∧
    runText store opts paths =
      (String.join ((textPaths store opts paths).map
        (fun p => renderLine store opts (pathLenOf store paths) (okInfo store p))),
       none) := by
  refine ⟨?_, sorted_setOfList _, fun x => mem_setOfList, ?_⟩
  · rw [runJson]
    split_ifs with h
    · rw [pathInfoToJSON, List.map_map, List.map_map]
      exact List.map_id' (setOfList paths)
    · rw [pathInfoToJSON, List.map_map]
      exact List.map_id' (setOfList paths)
  · simp only [runText, runTextLines_eq, okList_of_ok _ _ hok, firstErr_of_ok _ _ hok]

/-- Witness for the amended C3 at a concrete store and request. -/
theorem claim3_amended_witness :
    (∀ p ∈ textPaths storeC optsC [1, 0], (storeC.queryPathInfo p).isOk = true) ∧
    ((runJson storeC optsC [1, 0]).map JRec.path = setOfList [1, 0] ∧
     (setOfList ([1, 0] : List ℕ)).Sorted (· < ·) ∧
     (∀ x, x ∈ setOfList ([1, 0] : List ℕ) ↔ x ∈ ([1, 0] : List ℕ)) ∧
     runText storeC optsC [1, 0] =
       (String.join ((textPaths storeC optsC [1, 0]).map
         (fun p => renderLine storeC optsC (pathLenOf storeC [1, 0]) (okInfo storeC p))),
        none)) :=
  ⟨by decide, claim3_amended_order storeC optsC [1, 0] (by decide)⟩

/-- Claim C4 (counterexample): the claim asserts that when some path's
metadata query fails, no line of text output is produced for any path.
The code streams each line to std::cout inside the loop (lines
129-153), so with path 0 succeeding and path 1 failing, the run aborts
with an error but path 0's line has already been emitted. -/
theorem claim4_counterexample :
    (runText storeB optsB [0, 1]).2 = some "path 1 not found" ∧
    ¬ ((runText storeB optsB [0, 1]).1 = "") := by
  decide

/-- Claim C4 (amended): a metadata-query failure aborts the run — no
output is produced for the failing path or any later path — but the
lines already written for earlier paths remain: the text output is
exactly the rendered lines of the longest prefix of the (filtered) path
list whose metadata queries all succeed, and the reported error is the
first failure. -/
theorem claim4_amended_prefix_output {Path : Type} [LinearOrder Path]
    (store : Store Path) (opts : Opts) (paths : List Path) :
    runText store opts paths =
      (String.join ((okList store (textPaths store opts paths)).map
        (fun p => renderLine store opts (pathLenOf store paths) (okInfo store p))),
       firstErr store (textPaths store opts paths)) := by
  simp only [runText, runTextLines_eq]

/-- Claim C5 (confirmed): given the collaborator contract that the
substitutability query returns a subset of the queried paths, the
substitutable set and the missing sequence cover the request exactly,
are disjoint, and the missing sequence is a sublist of the request
(hence preserves the request order). -/
theorem claim5_partition_total {Path : Type} [LinearOrder Path]
    (store : Store Path) (paths : List Path)
    (h : ∀ q ∈ subPaths store paths, q ∈ paths) :
    (∀ x, x ∈ paths ↔ (x ∈ subPaths store paths ∨ x ∈ missingPaths store paths)) ∧
    (∀ x, ¬ (x ∈ subPaths store paths ∧ x ∈ missingPaths store paths)) ∧
    (missingPaths store paths).Sublist paths := by
  refine ⟨?_, ?_, List.filter_sublist paths⟩
  · intro x
    constructor
    · intro hx
      by_cases hs : x ∈ subPaths store paths
      · exact Or.inl hs
      · exact Or.inr (by simp [missingPaths, List.mem_filter, hx, hs])
    · rintro (hs | hm)
      · exact h x hs
      · exact (List.mem_filter.mp hm).1
  · rintro x ⟨hs, hm⟩
    have hx := (List.mem_filter.mp hm).2
    simp only [Bool.not_eq_true', decide_eq_false_iff_not] at hx
    exact hx hs

/-- Witness for C5 at a concrete store and request. -/
theorem claim5_witness :
    (∀ q ∈ subPaths storeC [0, 1], q ∈ ([0, 1] : List ℕ)) ∧
    ((∀ x, x ∈ ([0, 1] : List ℕ) ↔
        (x ∈ subPaths storeC [0, 1] ∨ x ∈ missingPaths storeC [0, 1])) ∧
     (∀ x, ¬ (x ∈ subPaths storeC [0, 1] ∧ x ∈ missingPaths storeC [0, 1])) ∧
     (missingPaths storeC [0, 1]).Sublist [0, 1]) :=
  ⟨by decide, claim5_partition_total storeC [0, 1] (by decide)⟩

/-- Claim C6 (counterexample): the claim asserts structured-mode record
count always equals the size of the original request.  The code builds
the JSON document over `StorePathSet(storePaths.begin(), ...)` (line
105), which deduplicates, so the duplicate request `[0, 0]` yields one
record, not two. -/
theorem claim6_counterexample :
    ¬ ((runJson storeC optsD [0, 0]).length = ([0, 0] : List ℕ).length) := by
  decide

/-- Claim C6 (amended): with showSubStatus enabled, text mode emits
exactly one row per missing path (row count = |missing|), while
structured mode emits exactly one record per DISTINCT requested path
(record count = |dedup request|, which equals |request| when the
request has no duplicates), each record annotated with a boolean
`substitutable` field true exactly on membership in the substitutable
set; no distinct requested path's record is dropped. -/
theorem claim6_amended_row_counts {Path : Type} [LinearOrder Path]
    (store : Store Path) (opts : Opts) (paths : List Path)
    (hsub : opts.showSubStatus = true)
    (hok : ∀ p ∈ missingPaths store paths, (store.queryPathInfo p).isOk = true) :
    ((runTextLines store opts (pathLenOf store paths) (textPaths store opts paths)).1).length
        = (missingPaths store paths).length ∧
    (runJson store opts paths).length = paths.dedup.length ∧
    (∀ v ∈ runJson store opts paths,
      v.substitutable = some (decide (v.path ∈ subPaths store paths))) := by
  refine ⟨?_, ?_, ?_⟩
  · rw [runTextLines_eq]
    simp [textPaths, hsub, okList_of_ok _ _ hok]
  · rw [runJson]
    simp [hsub, pathInfoToJSON, length_setOfList]
  · intro v hv
    rw [runJson] at hv
    simp only [hsub, if_true, pathInfoToJSON, List.map_map, List.mem_map,
      Function.comp] at hv
    obtain ⟨p, _, rfl⟩ := hv
    rfl

/-- Witness for the amended C6 at a concrete store and request. -/
theorem claim6_amended_witness :
    optsD.showSubStatus = true ∧
    (∀ p ∈ missingPaths storeC [0, 1], (storeC.queryPathInfo p).isOk = true) ∧
    (((runTextLines storeC optsD (pathLenOf storeC [0, 1])
          (textPaths storeC optsD [0, 1])).1).length
        = (missingPaths storeC [0, 1]).length ∧
     (runJson storeC optsD [0, 1]).length = ([0, 1] : List ℕ).dedup.length ∧
     (∀ v ∈ runJson storeC optsD [0, 1],
       v.substitutable = some (decide (v.path ∈ subPaths storeC [0, 1])))) :=
  ⟨rfl, by decide, claim6_amended_row_counts storeC optsD [0, 1] rfl (by decide)⟩

/-- Claim C8 (confirmed): the reporter is deterministic — its output is
a function of the option settings, the request sequence and the
observable collaborator (store) state alone, so two runs against stores
that answer every collaborator call identically produce byte-identical
output, in both modes. -/
theorem claim8_deterministic {Path : Type} [LinearOrder Path]
    (s₁ s₂ : Store Path) (opts : Opts) (paths : List Path)
    (h1 : s₁.printStorePath = s₂.printStorePath)
    (h2 : s₁.querySubstitutablePaths = s₂.querySubstitutablePaths)
    (h3 : s₁.queryPathInfo = s₂.queryPathInfo)
    (h4 : s₁.getClosureSize = s₂.getClosureSize)
    (h5 : s₁.jsonPayload = s₂.jsonPayload) :
    run s₁ opts paths = run s₂ opts paths := by
  obtain ⟨a1, a2, a3, a4, a5⟩ := s₁
  obtain ⟨b1, b2, b3, b4, b5⟩ := s₂
  have hs : (⟨a1, a2, a3, a4, a5⟩ : Store Path) = ⟨b1, b2, b3, b4, b5⟩ := by
    rw [Store.mk.injEq]
    exact ⟨h1, h2, h3, h4, h5⟩
  rw [hs]

/-- Witness for C8 at a concrete store, options and request. -/
theorem claim8_witness :
    run storeC optsC [0, 1] = run storeC optsC [0, 1] :=
  claim8_deterministic storeC storeC optsC [0, 1] rfl rfl rfl rfl rfl

/-- Claim C10 (confirmed): when neither showSize nor showClosureSize is
requested, the humanReadable flag has no effect on the output in either
mode (noninterference: only `printSize` reads the flag, and both its
call sites are guarded by those two options). -/
theorem claim10_human_flag_noninterference {Path : Type} [LinearOrder Path]
    (store : Store Path) (b₁ b₂ sg sub js : Bool) (paths : List Path) :
    run store ⟨false, false, b₁, sg, sub, js⟩ paths
      = run store ⟨false, false, b₂, sg, sub, js⟩ paths := by
  have hline : ∀ (w : ℕ) (i : PathData Path),
      renderLine store ⟨false, false, b₁, sg, sub, js⟩ w i
        = renderLine store ⟨false, false, b₂, sg, sub, js⟩ w i := by
    intro w i
    simp [renderLine]
  have htext : runText store ⟨false, false, b₁, sg, sub, js⟩ paths
      = runText store ⟨false, false, b₂, sg, sub, js⟩ paths := by
    rw [runText, runText,
      runTextLines_congr store ⟨false, false, b₁, sg, sub, js⟩
        ⟨false, false, b₂, sg, sub, js⟩ (pathLenOf store paths) (hline _)]
    rfl
  cases js with
  | false => simpa [run] using htext
  | true => simp [run, runJson, pathInfoToJSON]

end PathInfoCmd
